import Mathlib

/-! The shading mode controller of `hw7.js`

A shallow embedding of the keyboard handler (`setupKeyboardEvents`), the frame
procedure (`render`) and the start-up procedure (`main`) of `src/hw7.js`,
together with the properties of the mode state machine they implement.

The module-level variables of the script become the fields of `State`.  The
three mode variables are JavaScript strings in the source and stay strings
here, so that "the mode is one of CAMERA and MODEL" is a property to prove and
not a consequence of the typing.

Collaborators that live in other modules (`Arcball`, `Cone`, `Shader`, the text
overlay helpers) are represented by the part of their interface the script
uses.  Two counters that the script does not hold (`renderCalls`,
`pendingFrames`) record how often `render` ran and how many callbacks
`requestAnimationFrame` has queued.
-/

namespace Hw7

/-- A 4x4 matrix in the column-major layout of gl-matrix (16 entries). -/
abbrev Mat4 := List Rat

/-- The result of `mat4.create()`: a fresh identity matrix. -/
def mat4.create : Mat4 :=
  [1, 0, 0, 0,
   0, 1, 0, 0,
   0, 0, 1, 0,
   0, 0, 0, 1]

/-- Modelled from the spec: the mesh collaborator `Cone` (`cone.js` is not among
the sources).  The mesh holds its precomputed per-vertex and per-face normals,
the active normal set `normals`, and the GPU-resident copy `normalBuffer` that
`updateNormals` refreshes. -/
structure Cone where
  normals : List Rat
  vertexNormals : List Rat
  faceNormals : List Rat
  normalBuffer : List Rat
deriving DecidableEq

/-- Modelled from the spec: `copyVertexNormalsToNormals()` replaces the active
normals of the mesh with its precomputed per-vertex normals. -/
def Cone.copyVertexNormalsToNormals (c : Cone) : Cone :=
  { c with normals := c.vertexNormals }

/-- Modelled from the spec: `copyFaceNormalsToNormals()` replaces the active
normals of the mesh with its precomputed per-face normals. -/
def Cone.copyFaceNormalsToNormals (c : Cone) : Cone :=
  { c with normals := c.faceNormals }

/-- Modelled from the spec: `updateNormals()` pushes the selected normal set to
the GPU-resident buffer. -/
def Cone.updateNormals (c : Cone) : Cone :=
  { c with normalBuffer := c.normals }

/-- Modelled from the spec: the operations of the `Arcball` collaborator
(`arcball.js` is not among the sources) that the script consumes, over an
arbitrary type `A` of arcball states.  The three getters are observers. -/
structure ArcballApi (A : Type) where
  reset : A → A
  getViewMatrix : A → Mat4
  getModelRotMatrix : A → Mat4
  getViewCamDistanceMatrix : A → Mat4

/-- The uniforms of a shader program that the script writes after start-up.
`none` means that the uniform has not been written.  Uniforms written once in
`main` and never again (`u_projection`, `material.*`, `light.*`, the lamp's
`u_model`) and `u_viewPos`, always written with the constant camera position,
are left out. -/
structure Shader where
  u_model : Option Mat4
  u_view : Option Mat4
  u_shadingMode : Option Int
deriving DecidableEq

/-- Which shader program the last `use()` selected. -/
inductive Program where
  | cone
  | lamp
deriving DecidableEq

/-- The module-level variables of `hw7.js` that change after start-up, the
state of the collaborators, and the two bookkeeping counters. -/
structure State (A : Type) where
  arcBallMode : String
  shadingMode : String
  shadingMethod : String
  viewMatrix : Mat4
  modelMatrix : Mat4
  arcball : A
  cone : Cone
  shader : Shader
  lampShader : Shader
  activeProgram : Program
  textOverlay : String
  textOverlay2 : String
  renderCalls : Nat
  pendingFrames : Nat
deriving DecidableEq

/-- The function `render` (lines 143-174): pick the matrices according to the
rotation mode, draw the cone and the lamp, and queue one more call of itself
with `requestAnimationFrame`.  Clearing the canvas, enabling the depth test and
the two `draw` calls write to the frame buffer only and leave no trace in
`State` beyond the count of `render` calls. -/
def render {A : Type} (api : ArcballApi A) (s : State A) : State A :=
  let s1 : State A :=
    if s.arcBallMode = "CAMERA" then
      { s with viewMatrix := api.getViewMatrix s.arcball }
    else
      { s with
        modelMatrix := api.getModelRotMatrix s.arcball
        viewMatrix := api.getViewCamDistanceMatrix s.arcball }
  let s2 : State A :=
    { s1 with
      activeProgram := Program.cone
      shader := { s1.shader with u_model := some s1.modelMatrix, u_view := some s1.viewMatrix } }
  let s3 : State A :=
    { s2 with
      activeProgram := Program.lamp
      lampShader := { s2.lampShader with u_view := some s2.viewMatrix } }
  { s3 with
    renderCalls := s3.renderCalls + 1
    pendingFrames := s3.pendingFrames + 1 }

/-- The `keydown` listener installed by `setupKeyboardEvents` (lines 70-112),
applied to the value of `event.key`. -/
def keydown {A : Type} (api : ArcballApi A) (s : State A) (key : String) : State A :=
  if key = "a" then
    let mode := if s.arcBallMode = "CAMERA" then "MODEL" else "CAMERA"
    { s with
      arcBallMode := mode
      textOverlay := "arcball mode: " ++ mode }
  else if key = "r" then
    { s with
      arcball := api.reset s.arcball
      modelMatrix := mat4.create
      arcBallMode := "CAMERA"
      textOverlay := "arcball mode: " ++ "CAMERA" }
  else if key = "s" then
    render api
      { s with
        shadingMode := "SMOOTH"
        textOverlay2 := "shading mode: SMOOTH (" ++ s.shadingMethod ++ ")"
        cone := s.cone.copyVertexNormalsToNormals.updateNormals }
  else if key = "f" then
    render api
      { s with
        shadingMode := "FLAT"
        textOverlay2 := "shading mode: FLAT (" ++ s.shadingMethod ++ ")"
        cone := s.cone.copyFaceNormalsToNormals.updateNormals }
  else if key = "g" then
    render api
      { s with
        shadingMethod := "GOURAUD"
        textOverlay2 := "shading mode: " ++ s.shadingMode ++ " (" ++ "GOURAUD" ++ ")"
        cone := s.cone.copyVertexNormalsToNormals.updateNormals }
  else if key = "p" then
    render api
      { s with
        shadingMethod := "PHONG"
        textOverlay2 := "shading mode: " ++ s.shadingMode ++ " (" ++ "PHONG" ++ ")"
        activeProgram := Program.cone
        shader := { s.shader with u_shadingMode := some 1 } }
  else
    s

/-- What the module-level code and the successful path of `main` leave behind
when `setupKeyboardEvents` has run: the arcball and the cone as constructed,
and the view matrix after `mat4.translate(viewMatrix, viewMatrix, cameraPos)`. -/
structure Startup (A : Type) where
  arcball : A
  cone : Cone
  viewMatrix : Mat4

/-- The state at the end of a successful `main` (lines 176-233): the initial
values of the module-level variables (lines 32-38), the two status overlays
created at lines 218-219, and the first callback queued at line 230. -/
def main {A : Type} (st : Startup A) : State A :=
  { arcBallMode := "CAMERA"
    shadingMode := "SMOOTH"
    shadingMethod := "GOURAUD"
    viewMatrix := st.viewMatrix
    modelMatrix := mat4.create
    arcball := st.arcball
    cone := st.cone
    shader := { u_model := none, u_view := none, u_shadingMode := none }
    lampShader := { u_model := none, u_view := none, u_shadingMode := none }
    activeProgram := Program.lamp
    textOverlay := "arcball mode: " ++ "CAMERA"
    textOverlay2 := "shading mode: " ++ "SMOOTH" ++ " (" ++ "GOURAUD" ++ ") "
    renderCalls := 0
    pendingFrames := 1 }

/-- One display frame: the browser takes the callbacks queued with
`requestAnimationFrame` and runs each of them; every one is `render`. -/
def animationFrame {A : Type} (api : ArcballApi A) (s : State A) : State A :=
  (render api)^[s.pendingFrames] { s with pendingFrames := 0 }

/-- The events the page reacts to after start-up. -/
inductive Event where
  | key (k : String)
  | frame
deriving DecidableEq

/-- The reaction to one event. -/
def step {A : Type} (api : ArcballApi A) (s : State A) : Event → State A
  | Event.key k => keydown api s k
  | Event.frame => animationFrame api s

/-- The state after a sequence of events. -/
def run {A : Type} (api : ArcballApi A) (s : State A) (es : List Event) : State A :=
  es.foldl (step api) s

/-- The state after a sequence of key presses. -/
def pressKeys {A : Type} (api : ArcballApi A) (s : State A) (ks : List String) : State A :=
  ks.foldl (keydown api) s

/-- The six keys the listener reacts to. -/
def recognisedKeys : List String := ["a", "r", "s", "f", "g", "p"]

/-- The text the shading overlay is meant to show:
`shading mode: <mode> (<method>)`. -/
def shadingStatus (mode method : String) : String :=
  "shading mode: " ++ mode ++ " (" ++ method ++ ")"

/-- The part of the state an observer of the page can see. -/
structure Observable where
  arcBallMode : String
  shadingMode : String
  shadingMethod : String
  textOverlay : String
  textOverlay2 : String
  normals : List Rat
  u_shadingMode : Option Int
  modelMatrix : Mat4
deriving DecidableEq

/-- The observable part of a state. -/
def observe {A : Type} (s : State A) : Observable :=
  { arcBallMode := s.arcBallMode
    shadingMode := s.shadingMode
    shadingMethod := s.shadingMethod
    textOverlay := s.textOverlay
    textOverlay2 := s.textOverlay2
    normals := s.cone.normals
    u_shadingMode := s.shader.u_shadingMode
    modelMatrix := s.modelMatrix }

/-- A concrete arcball for evaluating the definitions: its state is a pair of
angles, `reset` returns to the origin. -/
def demoArcball : ArcballApi (Int × Int) where
  reset := fun _ => (0, 0)
  getViewMatrix := fun a => [a.1, a.2, 5]
  getModelRotMatrix := fun a => [a.1, a.2]
  getViewCamDistanceMatrix := fun _ => [5]

/-- A concrete start-up situation for evaluating the definitions. -/
def demoStartup : Startup (Int × Int) where
  arcball := (3, 4)
  cone := { normals := [0, 1, 0], vertexNormals := [1, 2, 3], faceNormals := [4, 5, 6], normalBuffer := [0, 1, 0] }
  viewMatrix := [1, 0, 0, 0, 0, 1, 0, 0, 0, 0, 1, 0, 0, 0, 3, 1]

/-- Whether a key is one of `s`, `f`, `g`, the keys that select a normal set. -/
def isNormalKey (k : String) : Bool :=
  k == "s" || k == "f" || k == "g"

/-- The last key among `s`, `f`, `g` in a sequence of keys, when there is one. -/
def lastNormalKey (ks : List String) : Option String :=
  (ks.filter isNormalKey).getLast?

/-- Whether an event is one of the key presses `s`, `f`, `g`, `p`. -/
def isShadingKeyEvent : Event → Bool
  | Event.key k => k == "s" || k == "f" || k == "g" || k == "p"
  | Event.frame => false

/-- The number of `s`, `f`, `g`, `p` key presses in a sequence of events. -/
def shadingKeyCount (es : List Event) : Nat :=
  es.countP isShadingKeyEvent

/-! ## What `render` leaves alone -/

section RenderFrame

variable {A : Type} (api : ArcballApi A) (s : State A)

theorem render_arcBallMode : (render api s).arcBallMode = s.arcBallMode := by
  unfold render; split_ifs <;> rfl

theorem render_shadingMode : (render api s).shadingMode = s.shadingMode := by
  unfold render; split_ifs <;> rfl

theorem render_shadingMethod : (render api s).shadingMethod = s.shadingMethod := by
  unfold render; split_ifs <;> rfl

theorem render_textOverlay : (render api s).textOverlay = s.textOverlay := by
  unfold render; split_ifs <;> rfl

theorem render_textOverlay2 : (render api s).textOverlay2 = s.textOverlay2 := by
  unfold render; split_ifs <;> rfl

theorem render_cone : (render api s).cone = s.cone := by
  unfold render; split_ifs <;> rfl

theorem render_arcball : (render api s).arcball = s.arcball := by
  unfold render; split_ifs <;> rfl

theorem render_flag : (render api s).shader.u_shadingMode = s.shader.u_shadingMode := by
  unfold render; split_ifs <;> rfl

theorem render_pendingFrames : (render api s).pendingFrames = s.pendingFrames + 1 := by
  unfold render; split_ifs <;> rfl

theorem render_renderCalls : (render api s).renderCalls = s.renderCalls + 1 := by
  unfold render; split_ifs <;> rfl

theorem render_modelMatrix :
    (render api s).modelMatrix =
      if s.arcBallMode = "CAMERA" then s.modelMatrix else api.getModelRotMatrix s.arcball := by
  unfold render; split_ifs <;> rfl

end RenderFrame

/-! ## The key handler, key by key -/

section Keys

variable {A : Type} (api : ArcballApi A) (s : State A)

theorem keydown_a :
    keydown api s "a" =
      { s with
        arcBallMode := if s.arcBallMode = "CAMERA" then "MODEL" else "CAMERA"
        textOverlay := "arcball mode: " ++ (if s.arcBallMode = "CAMERA" then "MODEL" else "CAMERA") } := by
  simp [keydown]

theorem keydown_r :
    keydown api s "r" =
      { s with
        arcball := api.reset s.arcball
        modelMatrix := mat4.create
        arcBallMode := "CAMERA"
        textOverlay := "arcball mode: " ++ "CAMERA" } := by
  simp [keydown]

theorem keydown_s :
    keydown api s "s" =
      render api
        { s with
          shadingMode := "SMOOTH"
          textOverlay2 := "shading mode: SMOOTH (" ++ s.shadingMethod ++ ")"
          cone := s.cone.copyVertexNormalsToNormals.updateNormals } := by
  simp [keydown]

theorem keydown_f :
    keydown api s "f" =
      render api
        { s with
          shadingMode := "FLAT"
          textOverlay2 := "shading mode: FLAT (" ++ s.shadingMethod ++ ")"
          cone := s.cone.copyFaceNormalsToNormals.updateNormals } := by
  simp [keydown]

theorem keydown_g :
    keydown api s "g" =
      render api
        { s with
          shadingMethod := "GOURAUD"
          textOverlay2 := "shading mode: " ++ s.shadingMode ++ " (" ++ "GOURAUD" ++ ")"
          cone := s.cone.copyVertexNormalsToNormals.updateNormals } := by
  simp [keydown]

theorem keydown_p :
    keydown api s "p" =
      render api
        { s with
          shadingMethod := "PHONG"
          textOverlay2 := "shading mode: " ++ s.shadingMode ++ " (" ++ "PHONG" ++ ")"
          activeProgram := Program.cone
          shader := { s.shader with u_shadingMode := some 1 } } := by
  simp [keydown]

theorem keydown_other (key : String) (ha : key ≠ "a") (hr : key ≠ "r") (hs : key ≠ "s")
    (hf : key ≠ "f") (hg : key ≠ "g") (hp : key ≠ "p") : keydown api s key = s := by
  simp [keydown, ha, hr, hs, hf, hg, hp]

end Keys

/-! ## The key handler, field by field -/

section Fields

variable {A : Type} (api : ArcballApi A) (s : State A) (key : String)

theorem keydown_arcBallMode :
    (keydown api s key).arcBallMode =
      if key = "a" then (if s.arcBallMode = "CAMERA" then "MODEL" else "CAMERA")
      else if key = "r" then "CAMERA" else s.arcBallMode := by
  unfold keydown
  split_ifs <;> simp [render_arcBallMode]

theorem keydown_vertexNormals :
    (keydown api s key).cone.vertexNormals = s.cone.vertexNormals := by
  unfold keydown
  split_ifs <;>
    simp [render_cone, Cone.copyVertexNormalsToNormals, Cone.copyFaceNormalsToNormals,
      Cone.updateNormals]

theorem keydown_faceNormals :
    (keydown api s key).cone.faceNormals = s.cone.faceNormals := by
  unfold keydown
  split_ifs <;>
    simp [render_cone, Cone.copyVertexNormalsToNormals, Cone.copyFaceNormalsToNormals,
      Cone.updateNormals]

theorem keydown_normals :
    (keydown api s key).cone.normals =
      if key = "f" then s.cone.faceNormals
      else if key = "s" ∨ key = "g" then s.cone.vertexNormals
      else s.cone.normals := by
  unfold keydown
  split_ifs <;>
    simp_all [render_cone, Cone.copyVertexNormalsToNormals, Cone.copyFaceNormalsToNormals,
      Cone.updateNormals]

theorem keydown_pendingFrames :
    (keydown api s key).pendingFrames =
      s.pendingFrames + if isShadingKeyEvent (Event.key key) then 1 else 0 := by
  unfold keydown isShadingKeyEvent
  split_ifs <;> simp_all [render_pendingFrames]

theorem pressKeys_concat (ks : List String) :
    pressKeys api s (ks ++ [key]) = keydown api (pressKeys api s ks) key := by
  simp [pressKeys, List.foldl_append]

theorem run_concat (es : List Event) (e : Event) :
    run api s (es ++ [e]) = step api (run api s es) e := by
  simp [run, List.foldl_append]

theorem pressKeys_vertexNormals (ks : List String) :
    (pressKeys api s ks).cone.vertexNormals = s.cone.vertexNormals := by
  induction ks using List.reverseRecOn with
  | nil => rfl
  | append_singleton ks k ih => rw [pressKeys_concat, keydown_vertexNormals, ih]

theorem pressKeys_faceNormals (ks : List String) :
    (pressKeys api s ks).cone.faceNormals = s.cone.faceNormals := by
  induction ks using List.reverseRecOn with
  | nil => rfl
  | append_singleton ks k ih => rw [pressKeys_concat, keydown_faceNormals, ih]

theorem pressKeys_arcBallMode (ks : List String)
    (h : s.arcBallMode = "CAMERA" ∨ s.arcBallMode = "MODEL") :
    (pressKeys api s ks).arcBallMode = "CAMERA" ∨ (pressKeys api s ks).arcBallMode = "MODEL" := by
  induction ks using List.reverseRecOn with
  | nil => exact h
  | append_singleton ks k ih =>
    rw [pressKeys_concat, keydown_arcBallMode]
    split_ifs <;> simp_all

theorem iterate_render_pendingFrames (n : Nat) :
    ((render api)^[n] s).pendingFrames = s.pendingFrames + n := by
  induction n generalizing s with
  | zero => rfl
  | succ n ih => rw [Function.iterate_succ_apply, ih, render_pendingFrames]; omega

theorem animationFrame_pendingFrames :
    (animationFrame api s).pendingFrames = s.pendingFrames := by
  unfold animationFrame
  rw [iterate_render_pendingFrames]
  simp

theorem lastNormalKey_concat (ks : List String) :
    lastNormalKey (ks ++ [key]) = if isNormalKey key then some key else lastNormalKey ks := by
  unfold lastNormalKey
  rw [List.filter_append]
  by_cases hk : isNormalKey key
  · simp [List.filter_cons, hk]
  · simp [List.filter_cons, hk]

end Fields

/-! ## The claims -/

/-- C1: in every state, also the one reached by pressing `a` first, the key `r`
yields a state whose rotation mode is CAMERA and whose model transform is the
identity matrix of `mat4.create`, and the arcball of the new state is the old
one after its `reset`. -/
theorem C1_r_resets_rotation_and_model {A : Type} (api : ArcballApi A) (s : State A) :
    (keydown api s "r").arcBallMode = "CAMERA" ∧
    (keydown api s "r").modelMatrix = mat4.create ∧
    (keydown api s "r").arcball = api.reset s.arcball ∧
    (keydown api (keydown api s "a") "r").arcBallMode = "CAMERA" ∧
    (keydown api (keydown api s "a") "r").modelMatrix = mat4.create ∧
    (keydown api (keydown api s "a") "r").arcball = api.reset s.arcball ∧
    mat4.create = [1, 0, 0, 0, 0, 1, 0, 0, 0, 0, 1, 0, 0, 0, 0, 1] := by
  refine ⟨?_, ?_, ?_, ?_, ?_, ?_, rfl⟩ <;> simp [keydown_r, keydown_a]

/-- C2: in every state, also right after `f`, the key `g` leaves the active
normals of the mesh (and the buffer pushed to the GPU) equal to its per-vertex
normals, which are the ones it had before, sets the shading method to GOURAUD,
and keeps the shading mode; after `f` then `g` the shading mode is FLAT while
the vertex normals are active. -/
theorem C2_g_forces_vertex_normals {A : Type} (api : ArcballApi A) (s : State A) :
    (keydown api s "g").cone.normals = (keydown api s "g").cone.vertexNormals ∧
    (keydown api s "g").cone.normalBuffer = (keydown api s "g").cone.vertexNormals ∧
    (keydown api s "g").cone.vertexNormals = s.cone.vertexNormals ∧
    (keydown api s "g").shadingMethod = "GOURAUD" ∧
    (keydown api s "g").shadingMode = s.shadingMode ∧
    (keydown api s "f").shadingMode = "FLAT" ∧
    (keydown api s "f").cone.normals = s.cone.faceNormals ∧
    (keydown api (keydown api s "f") "g").shadingMode = "FLAT" ∧
    (keydown api (keydown api s "f") "g").shadingMethod = "GOURAUD" ∧
    (keydown api (keydown api s "f") "g").cone.normals = s.cone.vertexNormals := by
  refine ⟨?_, ?_, ?_, ?_, ?_, ?_, ?_, ?_, ?_, ?_⟩ <;>
    simp [keydown_g, keydown_f, render_cone, render_shadingMode, render_shadingMethod,
      Cone.copyVertexNormalsToNormals, Cone.copyFaceNormalsToNormals, Cone.updateNormals]

/-- C3: in every state the key `s` sets the shading mode to SMOOTH and the key
`f` sets it to FLAT, and either key leaves the shading method as it was. -/
theorem C3_s_f_set_mode_keep_method {A : Type} (api : ArcballApi A) (s : State A) :
    (keydown api s "s").shadingMode = "SMOOTH" ∧
    (keydown api s "s").shadingMethod = s.shadingMethod ∧
    (keydown api s "f").shadingMode = "FLAT" ∧
    (keydown api s "f").shadingMethod = s.shadingMethod := by
  refine ⟨?_, ?_, ?_, ?_⟩ <;>
    simp [keydown_s, keydown_f, render_shadingMode, render_shadingMethod]

/-- C5 (as stated, refuted): from the start state, pressing `a` twice gives
rotation mode CAMERA while pressing it once gives MODEL, so the two observable
states differ. -/
theorem C5_a_twice_differs_from_a_once :
    (observe (keydown demoArcball (keydown demoArcball (main demoStartup) "a") "a")).arcBallMode = "CAMERA" ∧
    (observe (keydown demoArcball (main demoStartup) "a")).arcBallMode = "MODEL" ∧
    observe (keydown demoArcball (keydown demoArcball (main demoStartup) "a") "a") ≠
      observe (keydown demoArcball (main demoStartup) "a") := by
  decide

/-- C5 (amended): in every state and for every key other than the toggle `a`
(the keys `r`, `s`, `f`, `g`, `p` and every key the handler ignores), the
observable state after pressing the key twice in a row equals the observable
state after pressing it once. -/
theorem C5_idempotent_except_toggle {A : Type} (api : ArcballApi A) (s : State A)
    (key : String) (h : key ≠ "a") :
    observe (keydown api (keydown api s key) key) = observe (keydown api s key) := by
  by_cases hr : key = "r"
  · subst hr; simp [keydown_r, observe]
  by_cases hs : key = "s"
  · subst hs
    simp [keydown_s, observe, render_arcBallMode, render_shadingMode, render_shadingMethod,
      render_textOverlay, render_textOverlay2, render_cone, render_flag, render_modelMatrix,
      render_arcball, Cone.copyVertexNormalsToNormals, Cone.updateNormals]
    intro hm; simp [hm]
  by_cases hf : key = "f"
  · subst hf
    simp [keydown_f, observe, render_arcBallMode, render_shadingMode, render_shadingMethod,
      render_textOverlay, render_textOverlay2, render_cone, render_flag, render_modelMatrix,
      render_arcball, Cone.copyFaceNormalsToNormals, Cone.updateNormals]
    intro hm; simp [hm]
  by_cases hg : key = "g"
  · subst hg
    simp [keydown_g, observe, render_arcBallMode, render_shadingMode, render_shadingMethod,
      render_textOverlay, render_textOverlay2, render_cone, render_flag, render_modelMatrix,
      render_arcball, Cone.copyVertexNormalsToNormals, Cone.updateNormals]
    intro hm; simp [hm]
  by_cases hp : key = "p"
  · subst hp
    simp [keydown_p, observe, render_arcBallMode, render_shadingMode, render_shadingMethod,
      render_textOverlay, render_textOverlay2, render_cone, render_flag, render_modelMatrix,
      render_arcball]
    intro hm; simp [hm]
  · rw [keydown_other api s key h hr hs hf hg hp, keydown_other api s key h hr hs hf hg hp]

/-- Witness of C5 (amended) at the key `f` from the start state. -/
theorem C5_idempotent_except_toggle_witness :
    "f" ≠ "a" ∧
    observe (keydown demoArcball (keydown demoArcball (main demoStartup) "f") "f") =
      observe (keydown demoArcball (main demoStartup) "f") :=
  ⟨by decide, C5_idempotent_except_toggle demoArcball (main demoStartup) "f" (by decide)⟩

/-- C7: in every state, a key that is none of `a`, `r`, `s`, `f`, `g`, `p`
leaves the whole state as it was, the counters of `render` calls and queued
frames included; and the handler, a total function, yields a state for each of
the six recognised keys. -/
theorem C7_unrecognised_key_ignored {A : Type} (api : ArcballApi A) (s : State A)
    (key : String) (h : key ∉ recognisedKeys) :
    keydown api s key = s ∧
    (keydown api s key).renderCalls = s.renderCalls ∧
    (keydown api s key).pendingFrames = s.pendingFrames ∧
    ∀ k ∈ recognisedKeys, ∃ t : State A, keydown api s k = t := by
  simp only [recognisedKeys, List.mem_cons, List.mem_singleton, List.mem_nil_iff, or_false,
    not_or] at h
  obtain ⟨ha, hr, hs, hf, hg, hp⟩ := h
  rw [keydown_other api s key ha hr hs hf hg hp]
  exact ⟨rfl, rfl, rfl, fun k _ => ⟨keydown api s k, rfl⟩⟩

/-- Witness of C7 at the key `A` (upper case) from the start state. -/
theorem C7_unrecognised_key_ignored_witness :
    "A" ∉ recognisedKeys ∧
    keydown demoArcball (main demoStartup) "A" = main demoStartup :=
  ⟨by decide, (C7_unrecognised_key_ignored demoArcball (main demoStartup) "A" (by decide)).1⟩

/-- C4: after every sequence of key presses from the start state (of any keys,
so in particular of the six recognised ones) the rotation mode is CAMERA or
MODEL, two different values; it is CAMERA after a further `r`; a further `a`
turns CAMERA into MODEL and MODEL into CAMERA; and two further `a` restore the
rotation mode. -/
theorem C4_rotation_mode_invariant {A : Type} (api : ArcballApi A) (st : Startup A)
    (ks : List String) :
    ((pressKeys api (main st) ks).arcBallMode = "CAMERA" ∨
      (pressKeys api (main st) ks).arcBallMode = "MODEL") ∧
    ("CAMERA" : String) ≠ "MODEL" ∧
    (main st).arcBallMode = "CAMERA" ∧
    (pressKeys api (main st) (ks ++ ["r"])).arcBallMode = "CAMERA" ∧
    ((pressKeys api (main st) ks).arcBallMode = "CAMERA" →
      (pressKeys api (main st) (ks ++ ["a"])).arcBallMode = "MODEL") ∧
    ((pressKeys api (main st) ks).arcBallMode = "MODEL" →
      (pressKeys api (main st) (ks ++ ["a"])).arcBallMode = "CAMERA") ∧
    (pressKeys api (main st) (ks ++ ["a"] ++ ["a"])).arcBallMode =
      (pressKeys api (main st) ks).arcBallMode := by
  have hinv := pressKeys_arcBallMode api (main st) ks (Or.inl rfl)
  refine ⟨hinv, by decide, rfl, ?_, ?_, ?_, ?_⟩
  · rw [pressKeys_concat, keydown_arcBallMode]; simp
  · intro h; rw [pressKeys_concat, keydown_arcBallMode]; simp [h]
  · intro h; rw [pressKeys_concat, keydown_arcBallMode]; simp [h]
  · rw [pressKeys_concat, pressKeys_concat, keydown_arcBallMode, keydown_arcBallMode]
    rcases hinv with h | h <;> simp [h]

/-- C6 (evaluation at the failing input): after the single key `a` from the
start state the shading overlay still holds the text `main` gave it, which ends
in a blank, and so differs from `shading mode: <mode> (<method>)` for the
current mode and method; the scenario of the claim, `f` from the start state,
does give (CAMERA, FLAT, GOURAUD), the text `shading mode: FLAT (GOURAUD)` and
the face normals. -/
theorem C6_start_text_has_trailing_blank {A : Type} (api : ArcballApi A) (st : Startup A) :
    (pressKeys api (main st) ["a"]).textOverlay2 = "shading mode: SMOOTH (GOURAUD) " ∧
    (pressKeys api (main st) ["a"]).textOverlay2 ≠
      shadingStatus (pressKeys api (main st) ["a"]).shadingMode
        (pressKeys api (main st) ["a"]).shadingMethod ∧
    shadingStatus (pressKeys api (main st) ["a"]).shadingMode
        (pressKeys api (main st) ["a"]).shadingMethod = "shading mode: SMOOTH (GOURAUD)" ∧
    (pressKeys api (main st) ["f"]).arcBallMode = "CAMERA" ∧
    (pressKeys api (main st) ["f"]).shadingMode = "FLAT" ∧
    (pressKeys api (main st) ["f"]).shadingMethod = "GOURAUD" ∧
    (pressKeys api (main st) ["f"]).textOverlay2 = "shading mode: FLAT (GOURAUD)" ∧
    (pressKeys api (main st) ["f"]).cone.normals = st.cone.faceNormals := by
  refine ⟨?_, ?_, ?_, ?_, ?_, ?_, ?_, ?_⟩
  · simp [pressKeys, keydown_a, main]
  · simp [pressKeys, keydown_a, main, shadingStatus]
  · simp [pressKeys, keydown_a, main, shadingStatus]
  · simp [pressKeys, keydown_f, render_arcBallMode, main]
  · simp [pressKeys, keydown_f, render_shadingMode, main]
  · simp [pressKeys, keydown_f, render_shadingMethod, main]
  · simp [pressKeys, keydown_f, render_textOverlay2, main]
  · simp [pressKeys, keydown_f, render_cone, main, Cone.copyFaceNormalsToNormals,
      Cone.updateNormals]

/-- C8 (evaluation at the failing input): after `p` then `g` from the start
state the shading method is GOURAUD while the shader flag `u_shadingMode` still
has the value 1 that `p` gave it; before any key the flag is unset, and after
`p` alone the method is PHONG and the flag is 1. -/
theorem C8_flag_stays_set_after_p_g {A : Type} (api : ArcballApi A) (st : Startup A) :
    (main st).shader.u_shadingMode = none ∧
    (pressKeys api (main st) ["p"]).shadingMethod = "PHONG" ∧
    (pressKeys api (main st) ["p"]).shader.u_shadingMode = some 1 ∧
    (pressKeys api (main st) ["p", "g"]).shadingMethod = "GOURAUD" ∧
    (pressKeys api (main st) ["p", "g"]).shader.u_shadingMode = some 1 := by
  refine ⟨rfl, ?_, ?_, ?_, ?_⟩ <;>
    simp [pressKeys, keydown_p, keydown_g, render_shadingMethod, render_flag]

/-- C9: when `k` is the last of the keys `s`, `f`, `g` in a sequence of key
presses applied to any state, the active normals afterwards are the face
normals of the mesh if `k` is `f` and its vertex normals if `k` is `s` or `g`;
the keys `a`, `r`, `p` leave the active normals of every state as they are; and
after `f` then `g` the shading mode is FLAT while the vertex normals are
active, where after `f` alone it is FLAT with the face normals active. -/
theorem C9_last_write_wins {A : Type} (api : ArcballApi A) (s : State A)
    (ks : List String) (k : String) (h : lastNormalKey ks = some k) :
    (k = "f" → (pressKeys api s ks).cone.normals = s.cone.faceNormals) ∧
    (k = "s" ∨ k = "g" → (pressKeys api s ks).cone.normals = s.cone.vertexNormals) ∧
    (k = "f" ∨ k = "s" ∨ k = "g") ∧
    (∀ t : State A, ∀ q ∈ ["a", "r", "p"], (keydown api t q).cone.normals = t.cone.normals) ∧
    (pressKeys api s ["f"]).shadingMode = "FLAT" ∧
    (pressKeys api s ["f"]).cone.normals = s.cone.faceNormals ∧
    (pressKeys api s ["f", "g"]).shadingMode = "FLAT" ∧
    (pressKeys api s ["f", "g"]).cone.normals = s.cone.vertexNormals := by
  have main_part : ∀ (ks : List String) (k : String), lastNormalKey ks = some k →
      (k = "f" ∨ k = "s" ∨ k = "g") ∧
      (pressKeys api s ks).cone.normals =
        if k = "f" then s.cone.faceNormals else s.cone.vertexNormals := by
    intro ks
    induction ks using List.reverseRecOn with
    | nil => intro k hk; simp [lastNormalKey] at hk
    | append_singleton ks q ih =>
      intro k hk
      rw [lastNormalKey_concat] at hk
      rw [pressKeys_concat, keydown_normals, pressKeys_vertexNormals, pressKeys_faceNormals]
      by_cases hq : isNormalKey q = true
      · rw [if_pos hq] at hk
        cases hk
        simp only [isNormalKey, Bool.or_eq_true, beq_iff_eq] at hq
        rcases hq with (hq | hq) | hq <;> subst hq <;> simp
      · rw [if_neg hq] at hk
        obtain ⟨hk3, hn⟩ := ih k hk
        refine ⟨hk3, ?_⟩
        simp only [isNormalKey, Bool.or_eq_true, beq_iff_eq, not_or] at hq
        rw [if_neg hq.1.2, if_neg (by tauto), hn]
  obtain ⟨hk3, hn⟩ := main_part ks k h
  refine ⟨?_, ?_, hk3, ?_, ?_, ?_, ?_, ?_⟩
  · intro hf; rw [hn, if_pos hf]
  · intro hsg
    have hne : k ≠ "f" := by rcases hsg with h1 | h1 <;> rw [h1] <;> decide
    rw [hn, if_neg hne]
  · intro t q hq
    rw [keydown_normals]
    simp only [List.mem_cons, List.mem_singleton, List.mem_nil_iff, or_false] at hq
    rcases hq with h1 | h1 | h1 <;> subst h1 <;> simp
  · simp [pressKeys, keydown_f, render_shadingMode]
  · simp [pressKeys, keydown_normals]
  · simp [pressKeys, keydown_f, keydown_g, render_shadingMode]
  · simp [pressKeys, keydown_normals, keydown_vertexNormals]

/-- Witness of C9 at the keys `f`, `a`, `g`, `p` from the start state, whose
last key among `s`, `f`, `g` is `g`. -/
theorem C9_last_write_wins_witness :
    lastNormalKey ["f", "a", "g", "p"] = some "g" ∧
    (pressKeys demoArcball (main demoStartup) ["f", "a", "g", "p"]).cone.normals = [1, 2, 3] :=
  ⟨by decide,
    (C9_last_write_wins demoArcball (main demoStartup) ["f", "a", "g", "p"] "g"
      (by decide)).2.1 (Or.inr rfl)⟩

/-- C10: every call of `render` queues exactly one more callback; each of the
keys `s`, `f`, `g`, `p` raises the number of queued callbacks by one; the keys
`a` and `r` and a display frame leave it as it is; and after every sequence of
key presses and display frames from the start state, where one callback is
queued, the number is one more than the number of `s`, `f`, `g`, `p` presses. -/
theorem C10_queued_render_callbacks {A : Type} (api : ArcballApi A) (st : Startup A)
    (s : State A) (es : List Event) :
    (render api s).pendingFrames = s.pendingFrames + 1 ∧
    (∀ k ∈ ["s", "f", "g", "p"], (keydown api s k).pendingFrames = s.pendingFrames + 1) ∧
    (∀ k ∈ ["a", "r"], (keydown api s k).pendingFrames = s.pendingFrames) ∧
    (animationFrame api s).pendingFrames = s.pendingFrames ∧
    (main st).pendingFrames = 1 ∧
    (run api (main st) es).pendingFrames = 1 + shadingKeyCount es := by
  refine ⟨render_pendingFrames api s, ?_, ?_, animationFrame_pendingFrames api s, rfl, ?_⟩
  · intro k hk
    rw [keydown_pendingFrames]
    simp only [List.mem_cons, List.mem_singleton, List.mem_nil_iff, or_false] at hk
    rcases hk with h1 | h1 | h1 | h1 <;> subst h1 <;> simp [isShadingKeyEvent]
  · intro k hk
    rw [keydown_pendingFrames]
    simp only [List.mem_cons, List.mem_singleton, List.mem_nil_iff, or_false] at hk
    rcases hk with h1 | h1 <;> subst h1 <;> simp [isShadingKeyEvent]
  · induction es using List.reverseRecOn with
    | nil => rfl
    | append_singleton es e ih =>
      rw [run_concat, shadingKeyCount, List.countP_append, List.countP_singleton]
      cases e with
      | key k =>
        simp only [step]
        rw [keydown_pendingFrames, ih, shadingKeyCount]
        omega
      | frame =>
        simp only [step]
        rw [animationFrame_pendingFrames, ih, shadingKeyCount]
        simp [isShadingKeyEvent]

end Hw7
